import Mathlib

/-!
Verification of the run-lifecycle and trace-streaming relay of the
algorithm-visualizer backend (`backend-go/worker_manager.go`).

Shallow embedding conventions:
* Frames are opaque to the relay (Go `map[string]interface{}` passed through
  verbatim), so all definitions are parametric in a frame type `F`.
* Go `float64` fields are modelled as `ℚ`; none of the verified properties
  depends on floating-point rounding.
* The viewer connection is modelled by a send oracle `sendOk : Nat → Bool`
  giving the success of the k-th `WriteJSON` call of an attachment, and the
  explanation collaborator by an oracle `explain : Nat → Option Explanation`
  (`none` = the call for that frame failed).  `time.Sleep` has no observable
  effect on the message sequence and is not modelled.
* The run store (`runs` map) is modelled as a function
  `String → Option (RunState F)`; a single attachment is analysed against a
  fixed store snapshot (no concurrent mutation during the stream).
-/

namespace WorkerManager

variable {F : Type}

/-- Behavior signal record (`BehaviorSignal` struct): `PauseDuration float64`,
`ReplayCount int`, `SpeedMultiplier float64`, `HoverIndex *int`,
`ScrollDepth *int` (nil pointers modelled as `none`). -/
structure BehaviorSignal where
  PauseDuration : ℚ
  ReplayCount : Int
  SpeedMultiplier : ℚ
  HoverIndex : Option Int
  ScrollDepth : Option Int
deriving DecidableEq

/-- Run state (`RunState` struct): id, immutable trace, advisory cursor and a
lazily populated `map[int]*BehaviorSignal`. -/
structure RunState (F : Type) where
  RunID : String
  Trace : List F
  CurrentStep : Int
  BehaviorSignals : Int → Option BehaviorSignal

/-- The in-memory run store `runs map[string]*RunState`. -/
def RunsMap (F : Type) : Type := String → Option (RunState F)

/-- The `map[string]interface{}` returned by `getBehaviorSignal` and passed to
the explanation collaborator as `userBehavior`.  Key presence matters for the
observational-equivalence claim, so the optional keys are modelled as
`Option (Option Int)`: `none` = key absent from the map, `some v` = key present
with value `v` (`some none` = key present holding a nil pointer, i.e. JSON
`null`). -/
structure BehaviorMap where
  pauseDuration : ℚ
  replayCount : Int
  speedMultiplier : ℚ
  hoverIndex : Option (Option Int)
  scrollDepth : Option (Option Int)
deriving DecidableEq

/-- The three-key map `{pauseDuration: 0.0, replayCount: 0, speedMultiplier: 1.0}`
built by `getBehaviorSignal` when the run or the step signal is absent. -/
def defaultBehaviorMap : BehaviorMap :=
  { pauseDuration := 0
    replayCount := 0
    speedMultiplier := 1
    hoverIndex := none
    scrollDepth := none }

/-- `getBehaviorSignal(runID, stepIndex)`: looks the run up in the store; if the
run or the signal for the step is missing, returns the defaults map (three
keys); otherwise returns a five-key map copying the recorded signal, including
the `hoverIndex`/`scrollDepth` keys even when their pointers are nil. -/
def getBehaviorSignal (runs : RunsMap F) (runID : String) (stepIndex : Int) :
    BehaviorMap :=
  match runs runID with
  | none => defaultBehaviorMap
  | some run =>
    match run.BehaviorSignals stepIndex with
    | some signal =>
        { pauseDuration := signal.PauseDuration
          replayCount := signal.ReplayCount
          speedMultiplier := signal.SpeedMultiplier
          hoverIndex := some signal.HoverIndex
          scrollDepth := some signal.ScrollDepth }
    | none => defaultBehaviorMap

/-- Explanation payload.  The fallback built inline in `streamRun` has exactly
these five string fields; successful collaborator responses are decoded into
the same shape. -/
structure Explanation where
  mode : String
  explanation : String
  short_hint : String
  confidence_estimate : String
  followup_question : String
deriving DecidableEq

/-- The fixed fallback explanation substituted in `streamRun` when
`callPythonExplain` returns an error. -/
def fallbackExplanation : Explanation :=
  { mode := "conceptual"
    explanation := "Processing this step..."
    short_hint := "Watch the visualization"
    confidence_estimate := "medium"
    followup_question := "" }

/-- Outbound WebSocket message envelopes ({"type": ..., "data": ...}).
`endMsg`/`error` carry the string stored under the `"message"` key of their
data object. -/
inductive Msg (F : Type) where
  | trace (data : F)
  | explanation (data : Explanation)
  | endMsg (message : String)
  | error (message : String)
deriving DecidableEq

/-- The distinct failure outcomes of `streamRun`.  The send failures wrap the
underlying connection error in Go ("failed to send trace: %w" etc.); the
wrapped connection-error text is abstracted away. -/
inductive StreamError where
  | runNotFound (runID : String)
  | sendTraceFailed
  | sendExplanationFailed
  | sendEndFailed
deriving DecidableEq

/-- Error string of a `StreamError` as produced by `fmt.Errorf` in `streamRun`
(underlying connection-error text elided for the send failures). -/
def streamErrorMessage : StreamError → String
  | StreamError.runNotFound runID => "run not found: " ++ runID
  | StreamError.sendTraceFailed => "failed to send trace"
  | StreamError.sendExplanationFailed => "failed to send explanation"
  | StreamError.sendEndFailed => "failed to send end"

/-- Observable outcome of one `streamRun` call: the messages successfully
written to the viewer connection, the explanation-collaborator calls made
(frame index together with the `userBehavior` summary passed), and the error
returned, if any. -/
structure StreamResult (F : Type) where
  sent : List (Msg F)
  calls : List (Nat × BehaviorMap)
  error : Option StreamError
deriving DecidableEq

/-- The `userBehavior` summary built for step `i` inside the loop of
`streamRun`: `getBehaviorSignal(runID, i)` with the `speedMultiplier` key then
overwritten by the attachment's live multiplier. -/
def streamSummary (runs : RunsMap F) (runID : String) (speedMultiplier : ℚ)
    (i : Nat) : BehaviorMap :=
  { getBehaviorSignal runs runID (Int.ofNat i) with
      speedMultiplier := speedMultiplier }

/-- The nominal inter-frame delay in milliseconds computed by `streamRun`:
`baseDelay / speedMultiplier` with `baseDelay = 1000.0`.  (In Go the quotient
is a `float64` converted to `time.Duration`; `ℚ` keeps sign and magnitude for
every non-zero multiplier.) -/
def frameDelay (speedMultiplier : ℚ) : ℚ := 1000 / speedMultiplier

/-- The frame loop of `streamRun`, processing the remaining frames starting at
frame index `i`.  Send ordinals are in lockstep with the frame index: the TRACE
for frame `i` is the `2*i`-th `WriteJSON` of the attachment, its EXPLANATION the
`2*i+1`-th, and the END message follows the last pair.  A failed send emits
nothing and aborts the loop with the corresponding error. -/
def streamFrames (runs : RunsMap F) (runID : String) (sendOk : Nat → Bool)
    (explain : Nat → Option Explanation) (speedMultiplier : ℚ) :
    List F → Nat → StreamResult F
  | [], i =>
    if sendOk (2 * i) then
      { sent := [Msg.endMsg "Visualization complete"], calls := [], error := none }
    else
      { sent := [], calls := [], error := some StreamError.sendEndFailed }
  | frame :: rest, i =>
    if sendOk (2 * i) then
      let userBehavior := streamSummary runs runID speedMultiplier i
      let expl := (explain i).getD fallbackExplanation
      if sendOk (2 * i + 1) then
        let r := streamFrames runs runID sendOk explain speedMultiplier rest (i + 1)
        { sent := Msg.trace frame :: Msg.explanation expl :: r.sent
          calls := (i, userBehavior) :: r.calls
          error := r.error }
      else
        { sent := [Msg.trace frame]
          calls := [(i, userBehavior)]
          error := some StreamError.sendExplanationFailed }
    else
      { sent := [], calls := [], error := some StreamError.sendTraceFailed }

/-- `streamRun(runID, conn, speedMultiplier)`: run lookup followed by the frame
loop and the END message. -/
def streamRun (runs : RunsMap F) (runID : String) (sendOk : Nat → Bool)
    (explain : Nat → Option Explanation) (speedMultiplier : ℚ) :
    StreamResult F :=
  match runs runID with
  | none => { sent := [], calls := [], error := some (StreamError.runNotFound runID) }
  | some run => streamFrames runs runID sendOk explain speedMultiplier run.Trace 0

/-- Closed form of the full message sequence of a successful stream over the
given frames, first frame carrying index `i`: TRACE/EXPLANATION pairs in index
order followed by the single END message. -/
def expectedMessages (explain : Nat → Option Explanation) :
    Nat → List F → List (Msg F)
  | _, [] => [Msg.endMsg "Visualization complete"]
  | i, frame :: rest =>
      Msg.trace frame :: Msg.explanation ((explain i).getD fallbackExplanation) ::
        expectedMessages explain (i + 1) rest

/-- Closed form of the explanation-collaborator call sequence of a successful
stream over the given frames, first frame carrying index `i`. -/
def streamCalls (runs : RunsMap F) (runID : String) (speedMultiplier : ℚ) :
    Nat → List F → List (Nat × BehaviorMap)
  | _, [] => []
  | i, _ :: rest =>
      (i, streamSummary runs runID speedMultiplier i) ::
        streamCalls runs runID speedMultiplier (i + 1) rest

/-- Possible outcomes of the HTTP POST to the trace generator
(`http.Post(pythonBaseURL+"/execute", ...)`): transport failure, or a response
with a status code, a body, and a body-decode result. -/
inductive HttpOutcome (F : Type) where
  | unreachable (errMsg : String)
  | reached (statusCode : Nat) (bodyText : String) (decoded : Except String (List F))

/-- `callPythonExecute`: wraps a transport failure, turns a non-200 status into
an error carrying the upstream body, and otherwise returns the decoded trace
(or the decode error). -/
def callPythonExecute : HttpOutcome F → Except String (List F)
  | HttpOutcome.unreachable errMsg =>
      Except.error ("failed to call Python backend: " ++ errMsg)
  | HttpOutcome.reached statusCode bodyText decoded =>
      if statusCode = 200 then decoded
      else Except.error ("Python backend returned error: " ++ bodyText)

/-- True when the trace generator is unreachable or answers with a non-success
status — the upstream-failure premise of the error-handling claims. -/
def HttpOutcome.isUpstreamFailure : HttpOutcome F → Bool
  | HttpOutcome.unreachable _ => true
  | HttpOutcome.reached statusCode _ _ => statusCode != 200

/-- `createRun(algorithmID, array)`: on generator success, builds a fresh
`RunState` (trace, cursor 0, empty signal map) and publishes it in the store
under a fresh id; on generator failure, propagates the error and leaves the
store untouched.  The fresh uuid is a parameter; the execute-call result is the
oracle value `executeResult`. -/
def createRun (runs : RunsMap F) (newRunID : String)
    (executeResult : Except String (List F)) :
    Except String (RunsMap F × RunState F) :=
  match executeResult with
  | Except.error e => Except.error e
  | Except.ok trace =>
      let run : RunState F :=
        { RunID := newRunID
          Trace := trace
          CurrentStep := 0
          BehaviorSignals := fun _ => none }
      Except.ok (fun s => if s = newRunID then some run else runs s, run)

/-- Decoded POST /api/run request body. -/
structure CreateRequest where
  algorithmId : String
  array : List Int

/-- HTTP responses of the lifecycle API (body text for errors, the returned
run id for success). -/
inductive ApiResponse where
  | badRequest (message : String)
  | serverError (message : String)
  | okRunId (runId : String)
deriving DecidableEq

/-- Status code of an `ApiResponse` (`http.StatusBadRequest`,
`http.StatusInternalServerError`, OK). -/
def ApiResponse.statusCode : ApiResponse → Nat
  | ApiResponse.badRequest _ => 400
  | ApiResponse.serverError _ => 500
  | ApiResponse.okRunId _ => 200

/-- Outcome of `handleRunCreate`: the HTTP response, the store after the
request, and whether control reached the trace-generator call. -/
structure HandleRunCreateResult (F : Type) where
  response : ApiResponse
  runs : RunsMap F
  executeCalled : Bool

/-- `handleRunCreate` (POST path): body decode failure → 400; empty array →
400 before any generator call; otherwise delegate to `createRun` and map its
error to 500 with the upstream detail, or answer with the new run id.
`body = none` models a JSON decode error. -/
def handleRunCreate (runs : RunsMap F) (body : Option CreateRequest)
    (newRunID : String) (executeResult : Except String (List F)) :
    HandleRunCreateResult F :=
  match body with
  | none =>
      { response := ApiResponse.badRequest "Invalid request body"
        runs := runs
        executeCalled := false }
  | some request =>
      if request.array.length = 0 then
        { response := ApiResponse.badRequest "Array cannot be empty"
          runs := runs
          executeCalled := false }
      else
        match createRun runs newRunID executeResult with
        | Except.error e =>
            { response := ApiResponse.serverError ("Failed to create run: " ++ e)
              runs := runs
              executeCalled := true }
        | Except.ok (runs2, run) =>
            { response := ApiResponse.okRunId run.RunID
              runs := runs2
              executeCalled := true }

/-- The `speed` query parameter as seen by `handleWebSocket`: absent (empty
string), present but rejected by `fmt.Sscanf("%f")`, or parsed to a value. -/
inductive SpeedParam where
  | absent
  | unparseable
  | value (q : ℚ)

/-- The multiplier `handleWebSocket` passes to `streamRun`: initialised to 1.0
and overwritten by `Sscanf` only when the parameter is present and parseable.
No sign or zero check is performed. -/
def parsedSpeedMultiplier : SpeedParam → ℚ
  | SpeedParam.absent => 1
  | SpeedParam.unparseable => 1
  | SpeedParam.value q => q

/-- Outcome of `handleWebSocket`: an HTTP rejection before the upgrade (if
any), the messages successfully written to the socket, and the relay outcome
when `streamRun` ran. -/
structure HandleWebSocketResult (F : Type) where
  httpError : Option ApiResponse
  messages : List (Msg F)
  relay : Option (StreamResult F)
deriving DecidableEq

/-- `handleWebSocket`: missing runId → 400 before the upgrade; failed upgrade →
log and return; otherwise run the relay and, if it returns an error, attempt a
single best-effort ERROR message (`errorSendOk` = whether that write
succeeds). -/
def handleWebSocket (runs : RunsMap F) (runID : String) (speed : SpeedParam)
    (upgradeOk : Bool) (sendOk : Nat → Bool)
    (explain : Nat → Option Explanation) (errorSendOk : Bool) :
    HandleWebSocketResult F :=
  if runID = "" then
    { httpError := some (ApiResponse.badRequest "Missing runId parameter")
      messages := []
      relay := none }
  else
    let speedMultiplier := parsedSpeedMultiplier speed
    if upgradeOk then
      let r := streamRun runs runID sendOk explain speedMultiplier
      match r.error with
      | none => { httpError := none, messages := r.sent, relay := some r }
      | some e =>
          { httpError := none
            messages := r.sent ++
              (if errorSendOk then [Msg.error (streamErrorMessage e)] else [])
            relay := some r }
    else
      { httpError := none, messages := [], relay := none }

/-- Message classifiers used to count TRACE / EXPLANATION / END messages. -/
def Msg.isTrace : Msg F → Bool
  | Msg.trace _ => true
  | _ => false

/-- True exactly on EXPLANATION messages. -/
def Msg.isExplanation : Msg F → Bool
  | Msg.explanation _ => true
  | _ => false

/-- True exactly on END messages. -/
def Msg.isEnd : Msg F → Bool
  | Msg.endMsg _ => true
  | _ => false

/-! ### Helper lemmas about the frame loop -/

/-- When every send succeeds, the frame loop realises the closed-form message
sequence and call sequence and reports no error. -/
theorem streamFrames_allOk (runs : RunsMap F) (runID : String)
    (sendOk : Nat → Bool) (explain : Nat → Option Explanation)
    (speedMultiplier : ℚ) (hsend : ∀ j, sendOk j = true) :
    ∀ (frames : List F) (i : Nat),
      streamFrames runs runID sendOk explain speedMultiplier frames i =
        { sent := expectedMessages explain i frames
          calls := streamCalls runs runID speedMultiplier i frames
          error := none } := by
  intro frames
  induction frames with
  | nil =>
      intro i
      simp [streamFrames, expectedMessages, streamCalls, hsend]
  | cons frame rest ih =>
      intro i
      simp [streamFrames, expectedMessages, streamCalls, hsend, ih (i + 1)]

/-- Length of the closed-form message sequence: two messages per frame plus
the END message. -/
theorem expectedMessages_length (explain : Nat → Option Explanation) :
    ∀ (frames : List F) (i : Nat),
      (expectedMessages explain i frames).length = 2 * frames.length + 1 := by
  intro frames
  induction frames with
  | nil => intro i; simp [expectedMessages]
  | cons frame rest ih =>
      intro i
      simp [expectedMessages, ih (i + 1)]
      ring

/-- TRACE count of the closed-form message sequence. -/
theorem expectedMessages_countTrace (explain : Nat → Option Explanation) :
    ∀ (frames : List F) (i : Nat),
      (expectedMessages explain i frames).countP Msg.isTrace = frames.length := by
  intro frames
  induction frames with
  | nil => intro i; simp [expectedMessages, List.countP, List.countP.go, Msg.isTrace]
  | cons frame rest ih =>
      intro i
      simp [expectedMessages, List.countP_cons, Msg.isTrace, ih (i + 1)]

/-- EXPLANATION count of the closed-form message sequence. -/
theorem expectedMessages_countExplanation (explain : Nat → Option Explanation) :
    ∀ (frames : List F) (i : Nat),
      (expectedMessages explain i frames).countP Msg.isExplanation =
        frames.length := by
  intro frames
  induction frames with
  | nil =>
      intro i
      simp [expectedMessages, List.countP, List.countP.go, Msg.isExplanation]
  | cons frame rest ih =>
      intro i
      simp [expectedMessages, List.countP_cons, Msg.isExplanation, ih (i + 1)]

/-- END count of the closed-form message sequence: exactly one. -/
theorem expectedMessages_countEnd (explain : Nat → Option Explanation) :
    ∀ (frames : List F) (i : Nat),
      (expectedMessages explain i frames).countP Msg.isEnd = 1 := by
  intro frames
  induction frames with
  | nil => intro i; simp [expectedMessages, List.countP, List.countP.go, Msg.isEnd]
  | cons frame rest ih =>
      intro i
      simp [expectedMessages, List.countP_cons, Msg.isEnd, ih (i + 1)]

/-- Dropping the head of a nonempty-tailed cons keeps the last element. -/
theorem getLast?_cons_of_ne_nil {α : Type} (x : α) {l : List α} (h : l ≠ []) :
    (x :: l).getLast? = l.getLast? := by
  cases l with
  | nil => exact absurd rfl h
  | cons b t => exact List.getLast?_cons_cons

/-- The closed-form message sequence is never empty. -/
theorem expectedMessages_ne_nil (explain : Nat → Option Explanation) :
    ∀ (frames : List F) (i : Nat), expectedMessages explain i frames ≠ [] := by
  intro frames i
  cases frames with
  | nil => simp [expectedMessages]
  | cons frame rest => simp [expectedMessages]

/-- The closed-form message sequence ends with the END message. -/
theorem expectedMessages_getLast (explain : Nat → Option Explanation) :
    ∀ (frames : List F) (i : Nat),
      (expectedMessages explain i frames).getLast? =
        some (Msg.endMsg "Visualization complete") := by
  intro frames
  induction frames with
  | nil => intro i; simp [expectedMessages]
  | cons frame rest ih =>
      intro i
      rw [expectedMessages, List.getLast?_cons_cons,
        getLast?_cons_of_ne_nil _ (expectedMessages_ne_nil explain rest (i + 1))]
      exact ih (i + 1)

/-- Which send failure `streamRun` reports when the first failing `WriteJSON`
is the `k`-th of the attachment and the END message would be the
`endOrdinal`-th: an odd ordinal is an EXPLANATION send, the final ordinal the
END send, any other even ordinal a TRACE send. -/
def streamFailError (k endOrdinal : Nat) : StreamError :=
  if k % 2 = 1 then StreamError.sendExplanationFailed
  else if k = endOrdinal then StreamError.sendEndFailed
  else StreamError.sendTraceFailed

/-- When the `k`-th send is the first to fail, the frame loop emits exactly the
first `k` messages of the closed-form sequence, makes exactly the
explanation calls that precede the failure, and aborts with the matching send
error. -/
theorem streamFrames_firstFail (runs : RunsMap F) (runID : String)
    (sendOk : Nat → Bool) (explain : Nat → Option Explanation)
    (speedMultiplier : ℚ) (k : Nat) (hfail : sendOk k = false)
    (hok : ∀ j, j < k → sendOk j = true) :
    ∀ (frames : List F) (i : Nat), 2 * i ≤ k → k ≤ 2 * i + 2 * frames.length →
      streamFrames runs runID sendOk explain speedMultiplier frames i =
        { sent := (expectedMessages explain i frames).take (k - 2 * i)
          calls := (streamCalls runs runID speedMultiplier i frames).take
            ((k + 1) / 2 - i)
          error := some (streamFailError k (2 * i + 2 * frames.length)) } := by
  intro frames
  induction frames with
  | nil =>
      intro i hlo hhi
      rw [List.length_nil] at hhi
      have hk : k = 2 * i := by omega
      subst hk
      have h1 : 2 * i - 2 * i = 0 := by omega
      have h2 : (2 * i + 1) / 2 - i = 0 := by omega
      have h3 : ¬ (2 * i) % 2 = 1 := by omega
      simp [streamFrames, hfail, expectedMessages, streamCalls, h1, h2,
        streamFailError, h3]
  | cons frame rest ih =>
      intro i hlo hhi
      rw [List.length_cons] at hhi
      rcases Nat.lt_or_ge k (2 * i + 1) with hcase | hcase
      · -- k = 2 * i : the TRACE send for frame i fails
        have hk : k = 2 * i := by omega
        subst hk
        have h1 : 2 * i - 2 * i = 0 := by omega
        have h2 : (2 * i + 1) / 2 - i = 0 := by omega
        have h3 : ¬ (2 * i) % 2 = 1 := by omega
        have h4 : ¬ 2 * i = 2 * i + 2 * (rest.length + 1) := by omega
        simp [streamFrames, hfail, h1, h2, streamFailError, h3, h4]
      · rcases Nat.lt_or_ge k (2 * i + 2) with hcase2 | hcase2
        · -- k = 2 * i + 1 : the EXPLANATION send for frame i fails
          have hk : k = 2 * i + 1 := by omega
          subst hk
          have hsendT : sendOk (2 * i) = true := hok (2 * i) (by omega)
          have h1 : 2 * i + 1 - 2 * i = 1 := by omega
          have h2 : (2 * i + 1 + 1) / 2 - i = 1 := by omega
          have h3 : (2 * i + 1) % 2 = 1 := by omega
          simp [streamFrames, hsendT, hfail, expectedMessages, streamCalls,
            h1, h2, streamFailError, h3]
        · -- k ≥ 2 * i + 2 : both sends for frame i succeed, recurse
          have hsendT : sendOk (2 * i) = true := hok (2 * i) (by omega)
          have hsendE : sendOk (2 * i + 1) = true := hok (2 * i + 1) (by omega)
          have hrec := ih (i + 1) (by omega) (by omega)
          have hd : ∃ d, k - 2 * i = d + 2 ∧ d = k - 2 * (i + 1) := by
            exact ⟨k - 2 * i - 2, by omega, by omega⟩
          obtain ⟨d, hd1, hd2⟩ := hd
          have hc : (k + 1) / 2 - i = ((k + 1) / 2 - (i + 1)) + 1 := by omega
          have hend : 2 * (i + 1) + 2 * rest.length =
              2 * i + 2 * (rest.length + 1) := by ring
          simp [streamFrames, hsendT, hsendE, hrec, expectedMessages,
            streamCalls, hd1, hd2, hc, List.take_succ_cons, hend,
          List.length_cons]

/-- The EXPLANATION message for frame `k` sits at position `2*k+1` of the
closed-form sequence and carries the collaborator's answer, or the fallback
when the call failed. -/
theorem expectedMessages_get_odd (explain : Nat → Option Explanation) :
    ∀ (frames : List F) (k i : Nat), k < frames.length →
      (expectedMessages explain i frames).get? (2 * k + 1) =
        some (Msg.explanation ((explain (i + k)).getD fallbackExplanation)) := by
  intro frames
  induction frames with
  | nil => intro k i h; exact absurd h (Nat.not_lt_zero k)
  | cons frame rest ih =>
      intro k i h
      cases k with
      | zero => simp [expectedMessages]
      | succ k =>
          have h2 : k < rest.length := by
            simpa using Nat.lt_of_succ_lt_succ h
          have harith : 2 * (k + 1) + 1 = (2 * k + 1) + 1 + 1 := by ring
          rw [expectedMessages, harith, List.get?_cons_succ,
            List.get?_cons_succ, ih k (i + 1) h2]
          have : i + 1 + k = i + (k + 1) := by ring
          rw [this]

/-- The TRACE message for frame `k` sits at position `2*k` of the closed-form
sequence and carries that frame verbatim. -/
theorem expectedMessages_get_even (explain : Nat → Option Explanation) :
    ∀ (frames : List F) (k i : Nat), k < frames.length →
      (expectedMessages explain i frames).get? (2 * k) =
        (frames.get? k).map Msg.trace := by
  intro frames
  induction frames with
  | nil => intro k i h; exact absurd h (Nat.not_lt_zero k)
  | cons frame rest ih =>
      intro k i h
      cases k with
      | zero => simp [expectedMessages]
      | succ k =>
          have h2 : k < rest.length := by
            simpa using Nat.lt_of_succ_lt_succ h
          have harith : 2 * (k + 1) = (2 * k) + 1 + 1 := by ring
          rw [expectedMessages, harith, List.get?_cons_succ,
            List.get?_cons_succ, ih k (i + 1) h2, List.get?_cons_succ]

/-- The `k`-th explanation call of a fully successful stream is for frame
index `i + k` and carries that step's behavior summary. -/
theorem streamCalls_get (runs : RunsMap F) (runID : String)
    (speedMultiplier : ℚ) :
    ∀ (frames : List F) (k i : Nat), k < frames.length →
      (streamCalls runs runID speedMultiplier i frames).get? k =
        some (i + k, streamSummary runs runID speedMultiplier (i + k)) := by
  intro frames
  induction frames with
  | nil => intro k i h; exact absurd h (Nat.not_lt_zero k)
  | cons frame rest ih =>
      intro k i h
      cases k with
      | zero => simp [streamCalls]
      | succ k =>
          have h2 : k < rest.length := by
            simpa using Nat.lt_of_succ_lt_succ h
          rw [streamCalls, List.get?_cons_succ, ih k (i + 1) h2]
          have : i + 1 + k = i + (k + 1) := by ring
          rw [this]

/-- The frame loop only consults the explanation oracle through
`(explain i).getD fallbackExplanation`: two oracles agreeing on that view
produce identical streams. -/
theorem streamFrames_explain_congr (runs : RunsMap F) (runID : String)
    (sendOk : Nat → Bool) (speedMultiplier : ℚ)
    (e1 e2 : Nat → Option Explanation)
    (h : ∀ j, (e1 j).getD fallbackExplanation = (e2 j).getD fallbackExplanation) :
    ∀ (frames : List F) (i : Nat),
      streamFrames runs runID sendOk e1 speedMultiplier frames i =
        streamFrames runs runID sendOk e2 speedMultiplier frames i := by
  intro frames
  induction frames with
  | nil => intro i; simp [streamFrames]
  | cons frame rest ih =>
      intro i
      simp [streamFrames, h i, ih (i + 1)]

/-! ### Concrete fixtures used by the witnesses -/

/-- A stored run with a single frame and no recorded signals. -/
def demoRun1 : RunState Nat :=
  { RunID := "r", Trace := [7], CurrentStep := 0, BehaviorSignals := fun _ => none }

/-- A store holding `demoRun1` under id "r". -/
def demoRuns1 : RunsMap Nat :=
  fun s => if s = "r" then some demoRun1 else none

/-- Same trace as `demoRun1` but with an all-defaults signal recorded for
step 0. -/
def demoRunSig : RunState Nat :=
  { RunID := "r", Trace := [7], CurrentStep := 0
    BehaviorSignals := fun j =>
      if j = 0 then
        some { PauseDuration := 0, ReplayCount := 0, SpeedMultiplier := 1
               HoverIndex := none, ScrollDepth := none }
      else none }

/-- A store holding `demoRunSig` under id "r". -/
def demoRunsSig : RunsMap Nat :=
  fun s => if s = "r" then some demoRunSig else none

/-- A two-frame run with a non-trivial signal recorded for step 0
(recorded multiplier 5, to be overridden by the live one). -/
def demoRunRec : RunState Nat :=
  { RunID := "r", Trace := [7, 8], CurrentStep := 0
    BehaviorSignals := fun j =>
      if j = 0 then
        some { PauseDuration := 2, ReplayCount := 3, SpeedMultiplier := 5
               HoverIndex := some 4, ScrollDepth := none }
      else none }

/-- A store holding `demoRunRec` under id "r". -/
def demoRunsRec : RunsMap Nat :=
  fun s => if s = "r" then some demoRunRec else none

/-- A stored run whose trace is empty. -/
def demoRunEmpty : RunState Nat :=
  { RunID := "e", Trace := [], CurrentStep := 0, BehaviorSignals := fun _ => none }

/-- A store holding `demoRunEmpty` under id "e". -/
def demoRunsEmpty : RunsMap Nat :=
  fun s => if s = "e" then some demoRunEmpty else none

/-! ### Claim theorems -/

/-- C1: for a stored run with N frames (N ≥ 1), a stream attachment drained to
completion with no send failures emits exactly N TRACE and N EXPLANATION
messages, interleaved strictly as TRACE(0), EXPLANATION(0), TRACE(1),
EXPLANATION(1), …, followed by exactly one END message carrying
"Visualization complete", frames in index order, none skipped or
reordered. -/
theorem spec_c1_stream_message_sequence (runs : RunsMap F) (runID : String)
    (sendOk : Nat → Bool) (explain : Nat → Option Explanation) (m : ℚ)
    (run : RunState F) (N : Nat) (hrun : runs runID = some run)
    (hN : run.Trace.length = N) (_hpos : 1 ≤ N)
    (hsend : ∀ j, sendOk j = true) :
    (streamRun runs runID sendOk explain m).error = none ∧
    (streamRun runs runID sendOk explain m).sent =
      expectedMessages explain 0 run.Trace ∧
    (streamRun runs runID sendOk explain m).sent.countP Msg.isTrace = N ∧
    (streamRun runs runID sendOk explain m).sent.countP Msg.isExplanation = N ∧
    (streamRun runs runID sendOk explain m).sent.countP Msg.isEnd = 1 ∧
    (streamRun runs runID sendOk explain m).sent.getLast? =
      some (Msg.endMsg "Visualization complete") := by
  have hloop := streamFrames_allOk runs runID sendOk explain m hsend run.Trace 0
  refine ⟨?_, ?_, ?_, ?_, ?_, ?_⟩ <;>
    simp [streamRun, hrun, hloop, expectedMessages_countTrace,
      expectedMessages_countExplanation, expectedMessages_countEnd,
      expectedMessages_getLast, hN]

/-- Witness for C1 on a one-frame run with an always-successful connection. -/
theorem spec_c1_witness :
    (streamRun demoRuns1 "r" (fun _ => true) (fun _ => none) 1).error = none ∧
    (streamRun demoRuns1 "r" (fun _ => true) (fun _ => none) 1).sent.countP
      Msg.isTrace = 1 ∧
    (streamRun demoRuns1 "r" (fun _ => true) (fun _ => none) 1).sent.countP
      Msg.isEnd = 1 := by
  have h := spec_c1_stream_message_sequence demoRuns1 "r" (fun _ => true)
    (fun _ => none) 1 demoRun1 1 rfl rfl (le_refl 1) (fun _ => rfl)
  exact ⟨h.1, h.2.2.1, h.2.2.2.2.1⟩

/-- C2: if the explanation collaborator call for frame k fails, the relay does
not abort: it emits the EXPLANATION for frame k with the fallback payload
(mode "conceptual", confidence "medium", empty follow-up) and the whole stream
is identical to the stream in which that call had succeeded with the fallback
payload. -/
theorem spec_c2_explanation_fallback (runs : RunsMap F) (runID : String)
    (sendOk : Nat → Bool) (explain : Nat → Option Explanation) (m : ℚ)
    (run : RunState F) (k : Nat) (hrun : runs runID = some run)
    (hk : k < run.Trace.length) (hfailExpl : explain k = none)
    (hsend : ∀ j, sendOk j = true) :
    (streamRun runs runID sendOk explain m).sent.get? (2 * k + 1) =
      some (Msg.explanation fallbackExplanation) ∧
    fallbackExplanation.mode = "conceptual" ∧
    fallbackExplanation.confidence_estimate = "medium" ∧
    fallbackExplanation.followup_question = "" ∧
    streamRun runs runID sendOk explain m =
      streamRun runs runID sendOk
        (Function.update explain k (some fallbackExplanation)) m := by
  have hloop := streamFrames_allOk runs runID sendOk explain m hsend run.Trace 0
  refine ⟨?_, rfl, rfl, rfl, ?_⟩
  · rw [streamRun, hrun]
    simp only [hloop]
    rw [expectedMessages_get_odd explain run.Trace k 0 hk]
    simp [hfailExpl]
  · rw [streamRun, streamRun, hrun]
    apply streamFrames_explain_congr
    intro j
    by_cases hj : j = k
    · subst hj
      rw [hfailExpl, Function.update_same]
      rfl
    · rw [Function.update_noteq hj]

/-- Witness for C2 on a one-frame run whose explanation call fails. -/
theorem spec_c2_witness :
    (streamRun demoRuns1 "r" (fun _ => true) (fun _ => none) 1).sent.get? 1 =
      some (Msg.explanation fallbackExplanation) ∧
    fallbackExplanation.mode = "conceptual" := by
  have h := spec_c2_explanation_fallback demoRuns1 "r" (fun _ => true)
    (fun _ => none) 1 demoRun1 0 rfl (by decide) rfl (fun _ => rfl)
  exact ⟨h.1, h.2.1⟩

/-- C3 fails on the code: `handleWebSocket` never checks the parsed value, so a
parseable non-positive `speed` such as "-2" reaches the relay unchanged.  The
relay then really runs with multiplier -2 (visible in the summary passed to
the explanation collaborator) and the computed delay 1000/(-2) = -500 ms is
not positive. -/
theorem spec_c3_counterexample :
    parsedSpeedMultiplier (SpeedParam.value (-2)) = -2 ∧
    ¬ parsedSpeedMultiplier (SpeedParam.value (-2)) = 1 ∧
    ¬ 0 < parsedSpeedMultiplier (SpeedParam.value (-2)) ∧
    frameDelay (parsedSpeedMultiplier (SpeedParam.value (-2))) = -500 ∧
    (handleWebSocket demoRuns1 "r" (SpeedParam.value (-2)) true (fun _ => true)
        (fun _ => none) true).relay =
      some (streamRun demoRuns1 "r" (fun _ => true) (fun _ => none) (-2)) ∧
    (streamRun demoRuns1 "r" (fun _ => true) (fun _ => none) (-2)).calls =
      [(0, { pauseDuration := 0, replayCount := 0, speedMultiplier := -2
             hoverIndex := none, scrollDepth := none })] := by
  refine ⟨by norm_num [parsedSpeedMultiplier], by norm_num [parsedSpeedMultiplier],
    by norm_num [parsedSpeedMultiplier], by norm_num [parsedSpeedMultiplier, frameDelay],
    ?_, ?_⟩ <;> decide

/-- C3 amended: the multiplier used by the relay is 1.0 exactly when the speed
parameter is absent or unparseable; a parseable value — including a
non-positive one — is used as-is, and only for a positive multiplier is the
computed inter-frame delay positive. -/
theorem spec_c3_amended (q : ℚ) :
    parsedSpeedMultiplier SpeedParam.absent = 1 ∧
    parsedSpeedMultiplier SpeedParam.unparseable = 1 ∧
    parsedSpeedMultiplier (SpeedParam.value q) = q ∧
    (0 < q → 0 < frameDelay q) := by
  refine ⟨rfl, rfl, rfl, fun hq => ?_⟩
  exact div_pos (by norm_num) hq

/-- Witness for C3 amended at the positive multiplier 2. -/
theorem spec_c3_witness :
    parsedSpeedMultiplier (SpeedParam.value 2) = 2 ∧ 0 < frameDelay 2 :=
  ⟨(spec_c3_amended 2).2.2.1, (spec_c3_amended 2).2.2.2 (by norm_num)⟩

/-- C4 fails on the code: with the same one-frame trace and live multiplier,
the summary stream passed to the explanation collaborator differs between a
store with an all-defaults signal recorded for step 0 and a store with no
signal — `getBehaviorSignal` returns a five-key map (explicit null
`hoverIndex`/`scrollDepth`) in the first case and a three-key map in the
second, so the two cases are observably distinct. -/
theorem spec_c4_counterexample :
    ¬ getBehaviorSignal demoRunsSig "r" 0 = getBehaviorSignal demoRuns1 "r" 0 ∧
    ¬ (streamRun demoRunsSig "r" (fun _ => true) (fun _ => none) 1).calls =
        (streamRun demoRuns1 "r" (fun _ => true) (fun _ => none) 1).calls := by
  constructor <;> decide

/-- C4 amended: a recorded all-defaults signal and an absent signal yield
summaries that agree on `pauseDuration`, `replayCount` and the (overridden)
`speedMultiplier`, but are distinguishable by key presence: the recorded case
carries explicit null-valued `hoverIndex`/`scrollDepth` entries, the absent
case omits those keys. -/
theorem spec_c4_amended (runsA runsB : RunsMap F) (idA idB : String)
    (iA iB : Nat) (m : ℚ) (runA runB : RunState F)
    (hA : runsA idA = some runA)
    (hsigA : runA.BehaviorSignals (Int.ofNat iA) =
      some { PauseDuration := 0, ReplayCount := 0, SpeedMultiplier := 1
             HoverIndex := none, ScrollDepth := none })
    (hB : runsB idB = some runB)
    (hsigB : runB.BehaviorSignals (Int.ofNat iB) = none) :
    (streamSummary runsA idA m iA).pauseDuration =
      (streamSummary runsB idB m iB).pauseDuration ∧
    (streamSummary runsA idA m iA).replayCount =
      (streamSummary runsB idB m iB).replayCount ∧
    (streamSummary runsA idA m iA).speedMultiplier =
      (streamSummary runsB idB m iB).speedMultiplier ∧
    (streamSummary runsA idA m iA).hoverIndex = some none ∧
    (streamSummary runsB idB m iB).hoverIndex = none ∧
    ¬ streamSummary runsA idA m iA = streamSummary runsB idB m iB := by
  have hsA : streamSummary runsA idA m iA =
      { pauseDuration := 0, replayCount := 0, speedMultiplier := m
        hoverIndex := some none, scrollDepth := some none } := by
    simp only [streamSummary, getBehaviorSignal, hA, hsigA]
  have hsB : streamSummary runsB idB m iB =
      { pauseDuration := 0, replayCount := 0, speedMultiplier := m
        hoverIndex := none, scrollDepth := none } := by
    simp only [streamSummary, getBehaviorSignal, hB, hsigB, defaultBehaviorMap]
  rw [hsA, hsB]
  refine ⟨rfl, rfl, rfl, rfl, rfl, ?_⟩
  intro h
  exact Option.noConfusion (congrArg BehaviorMap.hoverIndex h)

/-- Witness for C4 amended on the concrete default-signal / no-signal
stores. -/
theorem spec_c4_witness :
    (streamSummary demoRunsSig "r" 1 0).hoverIndex = some none ∧
    (streamSummary demoRuns1 "r" 1 0).hoverIndex = none ∧
    ¬ streamSummary demoRunsSig "r" 1 0 = streamSummary demoRuns1 "r" 1 0 := by
  have h := spec_c4_amended demoRunsSig demoRuns1 "r" "r" 0 0 1 demoRunSig
    demoRun1 rfl rfl rfl rfl
  exact ⟨h.2.2.2.1, h.2.2.2.2.1, h.2.2.2.2.2⟩

/-- C5: when a behavior signal is recorded for step i and the attachment's
live multiplier is m, the summary passed to the explanation collaborator for
step i carries the recorded `pauseDuration` and `replayCount` while its
`speedMultiplier` equals m, whatever multiplier the recorded signal stored. -/
theorem spec_c5_recorded_signal_summary (runs : RunsMap F) (runID : String)
    (sendOk : Nat → Bool) (explain : Nat → Option Explanation) (m : ℚ)
    (run : RunState F) (i : Nat) (sig : BehaviorSignal)
    (hrun : runs runID = some run)
    (hsig : run.BehaviorSignals (Int.ofNat i) = some sig)
    (hi : i < run.Trace.length) (hsend : ∀ j, sendOk j = true) :
    (streamRun runs runID sendOk explain m).calls.get? i =
      some (i, streamSummary runs runID m i) ∧
    streamSummary runs runID m i =
      { pauseDuration := sig.PauseDuration
        replayCount := sig.ReplayCount
        speedMultiplier := m
        hoverIndex := some sig.HoverIndex
        scrollDepth := some sig.ScrollDepth } := by
  have hloop := streamFrames_allOk runs runID sendOk explain m hsend run.Trace 0
  constructor
  · rw [streamRun, hrun]
    simp only [hloop]
    rw [streamCalls_get runs runID m run.Trace i 0 hi]
    simp
  · simp only [streamSummary, getBehaviorSignal, hrun, hsig]

/-- Witness for C5: recorded signal (pause 2, replay 3, multiplier 5) streamed
with live multiplier 7 produces the summary (2, 3, 7, …). -/
theorem spec_c5_witness :
    (streamRun demoRunsRec "r" (fun _ => true) (fun _ => none) 7).calls.get? 0 =
      some (0, streamSummary demoRunsRec "r" 7 0) ∧
    streamSummary demoRunsRec "r" 7 0 =
      { pauseDuration := 2, replayCount := 3, speedMultiplier := 7
        hoverIndex := some (some 4), scrollDepth := some none } := by
  have h := spec_c5_recorded_signal_summary demoRunsRec "r" (fun _ => true)
    (fun _ => none) 7 demoRunRec 0
    { PauseDuration := 2, ReplayCount := 3, SpeedMultiplier := 5
      HoverIndex := some 4, ScrollDepth := none }
    rfl rfl (by decide) (fun _ => rfl)
  exact ⟨h.1, h.2⟩

/-- C6: if the k-th send of an attachment is the first to fail, the relay
aborts with an error there: the viewer received exactly the first k messages
of the full sequence and the explanation collaborator was called only for the
frames preceding the failure (none of the remaining frames). -/
theorem spec_c6_send_failure_aborts (runs : RunsMap F) (runID : String)
    (sendOk : Nat → Bool) (explain : Nat → Option Explanation) (m : ℚ)
    (run : RunState F) (k : Nat) (hrun : runs runID = some run)
    (hk : k ≤ 2 * run.Trace.length) (hfail : sendOk k = false)
    (hok : ∀ j, j < k → sendOk j = true) :
    (streamRun runs runID sendOk explain m).sent =
      (expectedMessages explain 0 run.Trace).take k ∧
    (streamRun runs runID sendOk explain m).calls =
      (streamCalls runs runID m 0 run.Trace).take ((k + 1) / 2) ∧
    (streamRun runs runID sendOk explain m).error =
      some (streamFailError k (2 * run.Trace.length)) := by
  have hloop := streamFrames_firstFail runs runID sendOk explain m k hfail hok
    run.Trace 0 (by omega) (by omega)
  rw [streamRun, hrun]
  simp only [hloop]
  refine ⟨rfl, by simp, by simp⟩

/-- Witness for C6: the very first send fails, so nothing is emitted and no
explanation call is made. -/
theorem spec_c6_witness :
    (streamRun demoRuns1 "r" (fun _ => false) (fun _ => none) 1).sent =
      (expectedMessages (fun _ => none) 0 demoRun1.Trace).take 0 ∧
    (streamRun demoRuns1 "r" (fun _ => false) (fun _ => none) 1).calls =
      (streamCalls demoRuns1 "r" 1 0 demoRun1.Trace).take 0 ∧
    (streamRun demoRuns1 "r" (fun _ => false) (fun _ => none) 1).error =
      some (streamFailError 0 2) := by
  have h := spec_c6_send_failure_aborts demoRuns1 "r" (fun _ => false)
    (fun _ => none) 1 demoRun1 0 rfl (by decide) rfl
    (fun j hj => absurd hj (Nat.not_lt_zero j))
  exact h

/-- C7: a create-run request with an empty array is answered with HTTP 400,
the trace generator is never called, and the Run Store is unchanged. -/
theorem spec_c7_empty_array_rejected (runs : RunsMap F)
    (request : CreateRequest) (newRunID : String)
    (executeResult : Except String (List F)) (harr : request.array = []) :
    (handleRunCreate runs (some request) newRunID executeResult).response =
      ApiResponse.badRequest "Array cannot be empty" ∧
    (handleRunCreate runs (some request) newRunID
      executeResult).response.statusCode = 400 ∧
    (handleRunCreate runs (some request) newRunID executeResult).runs = runs ∧
    (handleRunCreate runs (some request) newRunID
      executeResult).executeCalled = false := by
  refine ⟨?_, ?_, ?_, ?_⟩ <;>
    simp [handleRunCreate, harr, ApiResponse.statusCode]

/-- Witness for C7 on an empty store and the request ("bubble_sort", []). -/
theorem spec_c7_witness :
    (handleRunCreate (fun _ => (none : Option (RunState Nat)))
      (some { algorithmId := "bubble_sort", array := [] }) "id"
      (Except.ok [])).response = ApiResponse.badRequest "Array cannot be empty" ∧
    (handleRunCreate (fun _ => (none : Option (RunState Nat)))
      (some { algorithmId := "bubble_sort", array := [] }) "id"
      (Except.ok [])).executeCalled = false := by
  have h := spec_c7_empty_array_rejected (fun _ => (none : Option (RunState Nat)))
    { algorithmId := "bubble_sort", array := [] } "id" (Except.ok []) rfl
  exact ⟨h.1, h.2.2.2⟩

/-- C8: when the trace generator is unreachable or answers with a non-success
status, run creation propagates an error carrying the upstream detail, the
lifecycle API answers HTTP 500, and the Run Store is exactly as before. -/
theorem spec_c8_trace_generation_failure (runs : RunsMap F)
    (request : CreateRequest) (newRunID : String) (outcome : HttpOutcome F)
    (harr : request.array.length ≠ 0)
    (hfail : outcome.isUpstreamFailure = true) :
    ∃ e, callPythonExecute outcome = Except.error e ∧
      (handleRunCreate runs (some request) newRunID
        (callPythonExecute outcome)).response =
          ApiResponse.serverError ("Failed to create run: " ++ e) ∧
      (handleRunCreate runs (some request) newRunID
        (callPythonExecute outcome)).response.statusCode = 500 ∧
      (handleRunCreate runs (some request) newRunID
        (callPythonExecute outcome)).runs = runs := by
  have herr : ∃ e, callPythonExecute outcome = Except.error e := by
    cases outcome with
    | unreachable errMsg =>
        exact ⟨"failed to call Python backend: " ++ errMsg, rfl⟩
    | reached statusCode bodyText decoded =>
        have hne : ¬ statusCode = 200 := by
          simpa [HttpOutcome.isUpstreamFailure] using hfail
        exact ⟨"Python backend returned error: " ++ bodyText,
          by simp [callPythonExecute, hne]⟩
  obtain ⟨e, he⟩ := herr
  refine ⟨e, he, ?_, ?_, ?_⟩ <;>
    simp [handleRunCreate, harr, he, createRun, ApiResponse.statusCode]

/-- Witness for C8 with the generator answering status 500. -/
theorem spec_c8_witness :
    ∃ e, callPythonExecute (HttpOutcome.reached 500 "boom"
        (Except.ok ([] : List Nat))) = Except.error e ∧
      (handleRunCreate (fun _ => (none : Option (RunState Nat)))
        (some { algorithmId := "bubble_sort", array := [1] }) "id"
        (callPythonExecute (HttpOutcome.reached 500 "boom"
          (Except.ok ([] : List Nat))))).response =
            ApiResponse.serverError ("Failed to create run: " ++ e) ∧
      (handleRunCreate (fun _ => (none : Option (RunState Nat)))
        (some { algorithmId := "bubble_sort", array := [1] }) "id"
        (callPythonExecute (HttpOutcome.reached 500 "boom"
          (Except.ok ([] : List Nat))))).response.statusCode = 500 ∧
      (handleRunCreate (fun _ => (none : Option (RunState Nat)))
        (some { algorithmId := "bubble_sort", array := [1] }) "id"
        (callPythonExecute (HttpOutcome.reached 500 "boom"
          (Except.ok ([] : List Nat))))).runs =
        (fun _ => (none : Option (RunState Nat))) :=
  spec_c8_trace_generation_failure (fun _ => (none : Option (RunState Nat)))
    { algorithmId := "bubble_sort", array := [1] } "id"
    (HttpOutcome.reached 500 "boom" (Except.ok ([] : List Nat)))
    (by decide) (by decide)

/-- C9: attaching a stream for an unknown run id terminates the relay with
`runNotFound` before any TRACE, EXPLANATION or END message is sent and before
any explanation call; the viewer at most receives the single best-effort ERROR
message sent by the WebSocket handler afterwards. -/
theorem spec_c9_run_not_found (runs : RunsMap F) (runID : String)
    (speed : SpeedParam) (sendOk : Nat → Bool)
    (explain : Nat → Option Explanation) (errorSendOk : Bool)
    (hid : runID ≠ "") (hrun : runs runID = none) :
    (streamRun runs runID sendOk explain
      (parsedSpeedMultiplier speed)).sent = [] ∧
    (streamRun runs runID sendOk explain
      (parsedSpeedMultiplier speed)).calls = [] ∧
    (streamRun runs runID sendOk explain
      (parsedSpeedMultiplier speed)).error =
        some (StreamError.runNotFound runID) ∧
    (handleWebSocket runs runID speed true sendOk explain
      errorSendOk).messages =
        (if errorSendOk then [Msg.error ("run not found: " ++ runID)]
         else []) := by
  refine ⟨?_, ?_, ?_, ?_⟩ <;>
    simp [streamRun, hrun, handleWebSocket, hid, streamErrorMessage]

/-- Witness for C9 with an empty store and the unknown id "x". -/
theorem spec_c9_witness :
    (streamRun (fun _ => (none : Option (RunState Nat))) "x" (fun _ => true)
      (fun _ => none) (parsedSpeedMultiplier SpeedParam.absent)).sent = [] ∧
    (handleWebSocket (fun _ => (none : Option (RunState Nat))) "x"
      SpeedParam.absent true (fun _ => true) (fun _ => none) true).messages =
        [Msg.error ("run not found: " ++ "x")] := by
  have h := spec_c9_run_not_found (fun _ => (none : Option (RunState Nat)))
    "x" SpeedParam.absent (fun _ => true) (fun _ => none) true
    (by decide) rfl
  exact ⟨h.1, by simpa using h.2.2.2⟩

/-- C10: attaching a stream to a stored run whose trace is empty emits exactly
the END message ("Visualization complete"), completes without error and never
calls the explanation collaborator. -/
theorem spec_c10_empty_trace_end_only (runs : RunsMap F) (runID : String)
    (sendOk : Nat → Bool) (explain : Nat → Option Explanation) (m : ℚ)
    (run : RunState F) (hrun : runs runID = some run)
    (htrace : run.Trace = []) (hsend : sendOk 0 = true) :
    streamRun runs runID sendOk explain m =
      { sent := [Msg.endMsg "Visualization complete"], calls := []
        error := none } := by
  rw [streamRun, hrun]
  simp only [htrace]
  simp [streamFrames, hsend]

/-- Witness for C10 on the stored empty-trace run. -/
theorem spec_c10_witness :
    streamRun demoRunsEmpty "e" (fun _ => true) (fun _ => none) 1 =
      { sent := [Msg.endMsg "Visualization complete"], calls := []
        error := none } :=
  spec_c10_empty_trace_end_only demoRunsEmpty "e" (fun _ => true)
    (fun _ => none) 1 demoRunEmpty rfl rfl rfl

end WorkerManager
